import Mathlib

/-!
Verification development for the real-time broadcast layer of the
rococua-muhah repository (FastAPI WebSocket + Redis pub/sub backend, and
the Next.js dashboard's `useWebSocket` client hook).

The server-side broadcast layer (ConnectionManager / ChannelRegistry /
BusBridge / AuthGate) is specified in `spec.md` and documented in
`README_WEBSOCKETS.md`; its Python source is not part of the checked-in
tree, so those components are modelled from the spec.  The client hook
`useWebSocket` and its call sites are embedded from the TypeScript
sources under `dashboard/`.
-/

namespace Broadcast

/-- An immutable message broadcast on a channel: an event type tag plus an
opaque payload (the JSON `data` object is treated as an opaque string). -/
structure Event where
  type : String
  data : String
deriving DecidableEq, Repr

/-- A resolved principal: user id plus role set (role names), as returned by
the external credential-validation collaborator. -/
structure Principal where
  id : String
  roles : List String
deriving DecidableEq, Repr

/-- Modelled from the spec: `AuthGate.authorize` failure causes
(`invalid_credential`, `not_found`, `forbidden`; spec section 4.4). -/
inductive AuthFailure where
  | invalid_credential
  | not_found
  | forbidden
deriving DecidableEq, Repr

/-- Modelled from the spec: a parsed channel request -- either the channel of
one order or the single global product channel (spec section 3). -/
inductive ChannelRequest where
  | orderChannel (orderId : String)
  | productChannel
deriving DecidableEq, Repr

/-- Modelled from the spec: the concrete channel id a request resolves to
(`order:<id>` style naming per spec section 3; the registry treats it as an
opaque string). -/
def channelId : ChannelRequest → String
  | .orderChannel oid => "order:" ++ oid
  | .productChannel => "products"

/-- Modelled from the spec: `AuthGate.authorize(channelRequest, credential)`
(spec section 4.4).  Validates the credential via the external collaborator
`validate`; a product channel admits any valid principal; an order channel
looks the order up via `lookup`, rejects a missing order, then admits admins
and the owning user. -/
def authorize (validate : String → Option Principal)
    (lookup : String → Option String)
    (req : ChannelRequest) (cred : String) : Except AuthFailure Principal :=
  match validate cred with
  | none => .error .invalid_credential
  | some p =>
    match req with
    | .productChannel => .ok p
    | .orderChannel oid =>
      match lookup oid with
      | none => .error .not_found
      | some owner =>
        if "admin" ∈ p.roles then .ok p
        else if p.id = owner then .ok p
        else .error .forbidden

/-- The distinct rejection causes a failed connection attempt is closed with
(README_WEBSOCKETS.md, "WebSocket Error Codes"). -/
inductive CloseReason where
  | invalidOrderId
  | authFailed
  | accessDenied
  | orderNotFound
deriving DecidableEq, Repr, Fintype

/-- The documented application-level closure code per rejection cause
(README_WEBSOCKETS.md lines 242-248: 4000 invalid order ID format, 4001
authentication required/failed, 4003 access denied, 4004 order not found). -/
def closureCode : CloseReason → Nat
  | .invalidOrderId => 4000
  | .authFailed => 4001
  | .accessDenied => 4003
  | .orderNotFound => 4004

/-- Modelled from the spec: mapping from an `AuthGate` failure cause to the
closure reason the connection is rejected with (spec sections 4.1 and 6). -/
def reasonOf : AuthFailure → CloseReason
  | .invalid_credential => .authFailed
  | .not_found => .orderNotFound
  | .forbidden => .accessDenied

/-- Modelled from the spec: bus connectivity state of the process-wide
BusBridge singleton (spec section 3: `connected` / `degraded`). -/
inductive BusState where
  | connected
  | degraded
deriving DecidableEq, Repr

/-- Modelled from the spec: one live client connection -- unique id, the one
channel it belongs to for its whole lifetime, its bounded outbound queue
(oldest message first) and whether its socket has been closed
(spec section 3, "Connection"). -/
structure Conn where
  cid : Nat
  channel : String
  queue : List Event
  closed : Bool
deriving DecidableEq, Repr

/-- Modelled from the spec: the broadcast-layer state of one server process:
the connection table, the ChannelRegistry (channel id to subscriber-id list),
the configured per-connection queue bound, bus reachability, the BusBridge
state, the messages forwarded to the bus, the count of recorded
queue-overflow warnings and the degradation log (spec sections 2 and 3). -/
structure SystemState where
  conns : List Conn
  registry : List (String × List Nat)
  maxQ : Nat
  busUp : Bool
  bridge : BusState
  busOutbox : List (String × Event)
  warnings : Nat
  log : List String
deriving DecidableEq, Repr

/-- Modelled from the spec: the current subscriber set of a channel (empty
when the channel is absent from the registry; spec section 4.2). -/
def subsOf (reg : List (String × List Nat)) (ch : String) : List Nat :=
  match reg.find? (fun p => p.1 == ch) with
  | none => []
  | some p => p.2

/-- Modelled from the spec: `ChannelRegistry.subscribe(channel, connection)`
(spec section 4.2) -- adds the connection id to the channel's subscriber set,
creating the entry if absent. -/
def subscribe (reg : List (String × List Nat)) (ch : String) (cid : Nat) :
    List (String × List Nat) :=
  match reg.find? (fun p => p.1 == ch) with
  | none => reg ++ [(ch, [cid])]
  | some _ =>
    reg.map (fun p =>
      if p.1 == ch then (p.1, if cid ∈ p.2 then p.2 else p.2 ++ [cid]) else p)

/-- Modelled from the spec: `ChannelRegistry.unsubscribe(channel, connection)`
(spec section 4.2) -- removes the connection id from the channel's subscriber
set; a no-op if it is not subscribed. -/
def unsubscribe (reg : List (String × List Nat)) (ch : String) (cid : Nat) :
    List (String × List Nat) :=
  reg.map (fun p => if p.1 == ch then (p.1, p.2.filter (fun k => k ≠ cid)) else p)

/-- Modelled from the spec: enqueueing one event onto one connection during
`deliverLocal` (spec sections 4.1 and 7).  Within the bound the event is
appended; on overflow the oldest undelivered message is dropped, the event is
appended, and the offending connection is closed (slow-consumer isolation). -/
def deliverConn (maxQ : Nat) (subs : List Nat) (e : Event) (c : Conn) : Conn :=
  if c.cid ∈ subs then
    if c.queue.length < maxQ then { c with queue := c.queue ++ [e] }
    else { c with queue := c.queue.tail ++ [e], closed := true }
  else c

/-- Modelled from the spec: `ChannelRegistry.fanout(channel, event)` /
`ConnectionManager.deliverLocal` (spec sections 4.1 and 4.2) -- enqueues the
event onto every connection currently subscribed to the channel, records one
warning per queue overflow, and returns the count delivered. -/
def fanout (s : SystemState) (ch : String) (e : Event) : SystemState × Nat :=
  ({ s with
      conns := s.conns.map (deliverConn s.maxQ (subsOf s.registry ch) e),
      warnings := s.warnings +
        s.conns.countP (fun c =>
          decide (c.cid ∈ subsOf s.registry ch) && decide (s.maxQ ≤ c.queue.length)) },
   (subsOf s.registry ch).length)

/-- Modelled from the spec: the bus-forwarding half of `BusBridge.publish`
(spec section 4.3).  If the bus is reachable the event is forwarded under the
channel's topic; on failure the degradation is logged, nothing is raised to
the caller, and the bridge state is marked `degraded`. -/
def busForward (s : SystemState) (ch : String) (e : Event) : SystemState :=
  if s.busUp then { s with busOutbox := s.busOutbox ++ [(ch, e)] }
  else { s with bridge := .degraded, log := s.log ++ ["bus publish failed: " ++ ch] }

/-- Modelled from the spec: `BusBridge.publish(channel, event)` (spec section
4.3) -- always performs local fan-out first, then attempts to forward to the
bus; returns the local delivery count. -/
def publish (s : SystemState) (ch : String) (e : Event) : SystemState × Nat :=
  let r := fanout s ch e
  (busForward r.1 ch e, r.2)

/-- Modelled from the spec: resolving a bus topic back to the local channel id
(spec section 4.3; topics coincide with channel ids in the README's health
snapshot). -/
def resolveTopic (t : String) : String := t

/-- Modelled from the spec: `BusBridge.onBusMessage(topic, event)` (spec
section 4.3) -- resolves the topic to a channel and performs local fan-out
only; inbound bus messages are terminal and never re-forwarded. -/
def onBusMessage (s : SystemState) (topic : String) (e : Event) : SystemState × Nat :=
  fanout s (resolveTopic topic) e

/-- Modelled from the spec: the per-connection part of teardown -- release the
queue and close the socket if not already closed (spec section 4.1). -/
def closeConn (cid : Nat) (c : Conn) : Conn :=
  if c.cid = cid then { c with queue := [], closed := true } else c

/-- Modelled from the spec: `ConnectionManager` teardown of one connection
(spec section 4.1): remove it from the ChannelRegistry, release its queue,
close the underlying socket if not already closed. -/
def teardown (s : SystemState) (cid : Nat) : SystemState :=
  { s with
    conns := s.conns.map (closeConn cid),
    registry := s.registry.map (fun p => (p.1, p.2.filter (fun k => k ≠ cid))) }

/-- Modelled from the spec: `ConnectionManager.accept` after channel parsing
(spec section 4.1): run AuthGate; on failure the attempt is rejected with the
failure cause; on success allocate a Connection whose queue holds the single
`connection_established` event and register it in the ChannelRegistry. -/
def accept (validate : String → Option Principal) (lookup : String → Option String)
    (s : SystemState) (req : ChannelRequest) (cred : String) (newCid : Nat) :
    Except AuthFailure SystemState :=
  match authorize validate lookup req cred with
  | .error f => .error f
  | .ok _p =>
    let ch := channelId req
    let c : Conn := { cid := newCid, channel := ch,
                      queue := [{ type := "connection_established", data := "" }],
                      closed := false }
    .ok { s with conns := s.conns ++ [c], registry := subscribe s.registry ch newCid }

/-- Modelled from the spec: the endpoint path of a connection attempt -- the
fixed product path `/api/v1/ws/products` or the parameterized order path
`/api/v1/ws/orders/{order_id}` (spec section 6, README_WEBSOCKETS.md). -/
inductive WirePath where
  | productsPath
  | ordersPath (orderId : String)
deriving DecidableEq, Repr

/-- Modelled from the spec: parsing the endpoint path into a channel request;
an order path whose id fails the configured format check (`validId`) is
malformed (README_WEBSOCKETS.md: 4000 invalid order ID format). -/
def parseChannel (validId : String → Bool) : WirePath → Option ChannelRequest
  | .productsPath => some .productChannel
  | .ordersPath oid => if validId oid then some (.orderChannel oid) else none

/-- Modelled from the spec: a whole connection attempt (spec sections 4.1 and
6): parse the path; reject a malformed order id with its closure code; run
`accept`; map each AuthGate failure cause to its distinct closure code; on
success the connection is established. -/
def handleConnect (validId : String → Bool) (validate : String → Option Principal)
    (lookup : String → Option String) (s : SystemState) (path : WirePath)
    (cred : String) (newCid : Nat) : Except (CloseReason × Nat) SystemState :=
  match parseChannel validId path with
  | none => .error (.invalidOrderId, closureCode .invalidOrderId)
  | some req =>
    match accept validate lookup s req cred newCid with
    | .error f => .error (reasonOf f, closureCode (reasonOf f))
    | .ok s2 => .ok s2

end Broadcast

namespace Client

/-- Options of the `useWebSocket` hook with the source's defaults
(`dashboard/hooks/useWebSocket.ts`: `autoReconnect = true`,
`reconnectInterval = 5000`). -/
structure WsOptions where
  autoReconnect : Bool := true
  reconnectInterval : Nat := 5000
deriving DecidableEq, Repr

/-- The default WebSocket base URL of the hook
(`process.env.NEXT_PUBLIC_WS_URL || "ws://localhost:8000"`). -/
def wsBaseDefault : String := "ws://localhost:8000"

/-- JavaScript `split("; ")` on a character list: split at each
left-to-right, non-overlapping occurrence of the two-character separator. -/
def splitOnSemiSpace : List Char → List (List Char)
  | [] => [[]]
  | ';' :: ' ' :: rest => [] :: splitOnSemiSpace rest
  | c :: rest =>
    match splitOnSemiSpace rest with
    | [] => [[c]]
    | h :: t => (c :: h) :: t

/-- JavaScript `split(sep)` for a one-character separator. -/
def splitOnChar (sep : Char) : List Char → List (List Char)
  | [] => [[]]
  | c :: cs =>
    if c == sep then [] :: splitOnChar sep cs
    else
      match splitOnChar sep cs with
      | [] => [[c]]
      | h :: t => (c :: h) :: t

/-- The hook's cookie lookup: `document.cookie.split("; ")`, find the row
starting with `access_token=`, take `split("=")[1]`.  `none` models the
JavaScript `undefined` (no token found). -/
def extractAccessToken (cookie : String) : Option String :=
  ((splitOnSemiSpace cookie.toList).find?
      (fun row => "access_token=".toList.isPrefixOf row)).bind
    (fun row => ((splitOnChar '=' row).get? 1).map (fun cs => String.mk cs))

/-- An outgoing WebSocket handshake request: the URL handed to the
`WebSocket` constructor, plus the (always absent) extra transport headers --
the browser `WebSocket` constructor accepts no header argument. -/
structure WsRequest where
  url : String
  headers : List (String × String)
deriving DecidableEq, Repr

/-- The hook's URL construction:
`` `${wsUrl}/api/v1/ws${endpoint}?token=${token}` ``. -/
def buildWsUrl (wsUrl endpointStr token : String) : String :=
  wsUrl ++ "/api/v1/ws" ++ endpointStr ++ "?token=" ++ token

/-- A JavaScript value passed as the hook's first positional argument
(`endpoint`): either a string path, or a plain object (as the dashboard
pages pass).  Only the string-valued data fields of the object are kept. -/
inductive JsArg where
  | strArg (s : String)
  | objArg (fields : List (String × String))
deriving DecidableEq, Repr

/-- JavaScript string coercion inside a template literal: a string is itself;
a plain object coerces to `"[object Object]"`. -/
def coerceToString : JsArg → String
  | .strArg s => s
  | .objArg _ => "[object Object]"

/-- The `connect` function of the hook: bail out without a user or without an
`access_token` cookie; otherwise open a WebSocket at the concatenated URL,
with no transport headers. -/
def connect (hasUser : Bool) (wsUrl : String) (cookie : String)
    (endpointArg : JsArg) : Option WsRequest :=
  if hasUser then
    match extractAccessToken cookie with
    | none => none
    | some token =>
      some { url := buildWsUrl wsUrl (coerceToString endpointArg) token, headers := [] }
  else none

/-- The first positional argument of `useWebSocket` in
`dashboard/app/dashboard/layout.tsx` (an options object, not a path). -/
def dashboardLayoutArg : JsArg := .objArg [("endpoint", "/ws/dashboard")]

/-- The first positional argument of `useWebSocket` in
`dashboard/app/dashboard/orders/page.tsx` (an options object, not a path). -/
def ordersPageArg : JsArg := .objArg [("endpoint", "/ws/orders")]

/-- The first positional argument of `useWebSocket` in the products page
(an options object, not a path). -/
def productsPageArg : JsArg := .objArg [("endpoint", "/ws/products")]

/-- The first positional argument of `useWebSocket` in
`dashboard/app/dashboard/users/page.tsx` (an options object, not a path). -/
def usersPageArg : JsArg := .objArg [("endpoint", "/ws/users")]

/-- The hook's `onclose` handler as a scheduling decision: with
`autoReconnect` on and a close code other than 1000, a reconnect is scheduled
after `reconnectInterval` milliseconds (`some interval`); otherwise nothing
is scheduled (`none`). -/
def onCloseAction (opts : WsOptions) (code : Nat) : Option Nat :=
  if opts.autoReconnect && code != 1000 then some opts.reconnectInterval else none

/-- The hook's mutable refs that `disconnect` touches: the pending reconnect
timer and the open socket. -/
structure HookState where
  pendingReconnect : Option Nat
  wsOpen : Bool
deriving DecidableEq, Repr

/-- The hook's `disconnect`: clear the pending reconnect timer and close the
socket with code 1000 ("Manual disconnect"). -/
def disconnect (_st : HookState) : HookState :=
  { pendingReconnect := none, wsOpen := false }

/-- Naive substring occurrence on character lists (`needle` occurs
contiguously in `hay`). -/
def occursIn (needle : List Char) : List Char → Bool
  | [] => needle.isEmpty
  | b :: bs => needle.isPrefixOf (b :: bs) || occursIn needle bs

end Client

namespace Broadcast

/-- The outbound queue of the connection with the given id, if one exists. -/
def connQueue (s : SystemState) (cid : Nat) : Option (List Event) :=
  (s.conns.find? (fun c => c.cid == cid)).map (fun c => c.queue)

/-- Whether the connection with the given id has been closed, if it exists. -/
def connClosed (s : SystemState) (cid : Nat) : Option Bool :=
  (s.conns.find? (fun c => c.cid == cid)).map (fun c => c.closed)

/-- `deliverConn` never changes a connection's id. -/
theorem deliverConn_cid (maxQ : Nat) (subs : List Nat) (e : Event) (c : Conn) :
    (deliverConn maxQ subs e c).cid = c.cid := by
  unfold deliverConn
  by_cases h : c.cid ∈ subs
  · by_cases h2 : c.queue.length < maxQ <;> simp [h, h2]
  · simp [h]

/-- `closeConn` never changes a connection's id. -/
theorem closeConn_cid (k : Nat) (c : Conn) : (closeConn k c).cid = c.cid := by
  unfold closeConn
  by_cases h : c.cid = k <;> simp [h]

/-- Searching a connection list by id commutes with mapping an id-preserving
function over it. -/
theorem find?_cid_map (f : Conn → Conn) (hf : ∀ c, (f c).cid = c.cid)
    (l : List Conn) (k : Nat) :
    (l.map f).find? (fun c => c.cid == k) =
      (l.find? (fun c => c.cid == k)).map f := by
  induction l with
  | nil => rfl
  | cons c t ih =>
    simp only [List.map_cons]
    by_cases h : c.cid == k
    · have h2 : ((f c).cid == k) = true := by simpa [hf c] using h
      rw [List.find?_cons_of_pos (p := fun x : Conn => x.cid == k) _ h2,
        List.find?_cons_of_pos (p := fun x : Conn => x.cid == k) _ h]
      rfl
    · have h2 : ¬ ((f c).cid == k) = true := by simpa [hf c] using h
      rw [List.find?_cons_of_neg (p := fun x : Conn => x.cid == k) _ h2,
        List.find?_cons_of_neg (p := fun x : Conn => x.cid == k) _ h, ih]

/-- The queue of one connection after a fan-out: subscribers get the event
appended (dropping the oldest entry when the queue is at its bound),
non-subscribers are untouched. -/
theorem connQueue_fanout (s : SystemState) (ch : String) (e : Event) (cid : Nat) :
    connQueue (fanout s ch e).1 cid =
      (connQueue s cid).map (fun q =>
        if cid ∈ subsOf s.registry ch then
          (if q.length < s.maxQ then q ++ [e] else q.tail ++ [e])
        else q) := by
  unfold connQueue fanout
  rw [find?_cid_map (deliverConn s.maxQ (subsOf s.registry ch) e)
    (deliverConn_cid s.maxQ (subsOf s.registry ch) e)]
  cases hfind : s.conns.find? (fun c => c.cid == cid) with
  | none => rfl
  | some c =>
    have hc : c.cid = cid := by simpa using List.find?_some hfind
    unfold deliverConn
    by_cases hmem : cid ∈ subsOf s.registry ch
    · by_cases hlen : c.queue.length < s.maxQ <;> simp [hc, hmem, hlen]
    · simp [hc, hmem]

/-- The closed flag of one connection after a fan-out: it flips to `true`
exactly for a subscriber whose queue was already at the bound. -/
theorem connClosed_fanout (s : SystemState) (ch : String) (e : Event) (cid : Nat) :
    connClosed (fanout s ch e).1 cid =
      ((s.conns.find? (fun c => c.cid == cid)).map (fun c =>
        if cid ∈ subsOf s.registry ch ∧ ¬ c.queue.length < s.maxQ then true
        else c.closed)) := by
  unfold connClosed fanout
  rw [find?_cid_map (deliverConn s.maxQ (subsOf s.registry ch) e)
    (deliverConn_cid s.maxQ (subsOf s.registry ch) e)]
  cases hfind : s.conns.find? (fun c => c.cid == cid) with
  | none => rfl
  | some c =>
    have hc : c.cid = cid := by simpa using List.find?_some hfind
    unfold deliverConn
    by_cases hmem : cid ∈ subsOf s.registry ch
    · by_cases hlen : c.queue.length < s.maxQ
      · simp [hc, hmem, hlen]
      · simp [hc, hmem, hlen]
        exact Or.inl (Nat.le_of_not_lt hlen)
    · simp [hc, hmem]

/-- `busForward` touches neither the connection table nor anything the
fan-out observables read. -/
theorem busForward_conns (s : SystemState) (ch : String) (e : Event) :
    (busForward s ch e).conns = s.conns := by
  unfold busForward
  by_cases h : s.busUp <;> simp [h]

/-- Per-connection observables are identical after `publish` and after the
pure local `fanout` it starts with. -/
theorem connQueue_publish (s : SystemState) (ch : String) (e : Event) (cid : Nat) :
    connQueue (publish s ch e).1 cid = connQueue (fanout s ch e).1 cid := by
  unfold connQueue publish
  rw [busForward_conns]

/-- A concrete fully-local system state used by the concrete witnesses:
two open connections subscribed to the product channel. -/
def demoState : SystemState :=
  { conns := [{ cid := 1, channel := "products", queue := [], closed := false },
              { cid := 2, channel := "products", queue := [], closed := false }],
    registry := [("products", [1, 2])],
    maxQ := 10, busUp := true, bridge := .connected,
    busOutbox := [], warnings := 0, log := [] }

/-- C1 (counterexample): the claimed equivalence is false as stated.  With a
valid admin credential and an order id that does not resolve to any order
(the lookup collaborator returns `NotFound`), the right-hand side of the
claimed "iff" holds (the principal's role set contains `admin`) yet the
connection attempt is rejected (`not_found`), so no connection is
established. -/
theorem accept_admin_missing_order_cx :
    ¬ (((accept (fun _ => some { id := "u1", roles := ["admin"] }) (fun _ => none)
          demoState (.orderChannel "o1") "tok" 3).isOk) ↔
        (∃ p, (fun _ => some { id := "u1", roles := ["admin"] } :
                String → Option Principal) "tok" = some p ∧
          ("admin" ∈ p.roles ∨
            ∃ owner, (fun _ => none : String → Option String) "o1" = some owner ∧
              p.id = owner))) := by
  intro h
  have h2 : ((accept (fun _ => some { id := "u1", roles := ["admin"] }) (fun _ => none)
      demoState (.orderChannel "o1") "tok" 3).isOk) := by
    refine h.mpr ⟨{ id := "u1", roles := ["admin"] }, rfl, Or.inl (by simp)⟩
  simp [accept, authorize, Except.isOk, Except.toBool] at h2

/-- C1 (amended): a connection attempt to an order channel is established iff
the credential resolves to a valid principal, the order id resolves to an
existing order, and the principal's role set contains admin or the principal
id equals the order's owning user id (a nonexistent order is rejected with
`not_found` even for admins); a connection attempt to the product channel is
established iff the credential resolves to a valid principal. -/
theorem accept_auth_characterization (validate : String → Option Principal)
    (lookup : String → Option String) (s : SystemState) (cred : String)
    (newCid : Nat) (oid : String) :
    ((accept validate lookup s (.orderChannel oid) cred newCid).isOk ↔
      ∃ p, validate cred = some p ∧ ∃ owner, lookup oid = some owner ∧
        ("admin" ∈ p.roles ∨ p.id = owner))
    ∧ ((accept validate lookup s .productChannel cred newCid).isOk ↔
      (validate cred).isSome) := by
  constructor
  · cases hv : validate cred with
    | none => simp [accept, authorize, hv, Except.isOk, Except.toBool]
    | some p =>
      cases hl : lookup oid with
      | none => simp [accept, authorize, hv, hl, Except.isOk, Except.toBool]
      | some owner =>
        by_cases hadm : "admin" ∈ p.roles
        · simp [accept, authorize, hv, hl, hadm, Except.isOk, Except.toBool]
        · by_cases hid : p.id = owner <;>
            simp [accept, authorize, hv, hl, hadm, hid, Except.isOk, Except.toBool]
  · cases hv : validate cred <;>
      simp [accept, authorize, hv, Except.isOk, Except.toBool]

/-- Witness for C1 (amended) at concrete collaborators: the owner of an
existing order is admitted to its channel. -/
theorem accept_auth_characterization_witness :
    (accept (fun _ => some { id := "u1", roles := [] }) (fun _ => some "u1")
      demoState (.orderChannel "o1") "tok" 3).isOk = true :=
  (accept_auth_characterization (fun _ => some { id := "u1", roles := [] })
      (fun _ => some "u1") demoState "tok" 3 "o1").1.mpr
    ⟨{ id := "u1", roles := [] }, rfl, "u1", rfl, Or.inr rfl⟩

/-- C4: a message received from the bus is only fanned out locally -- the
handler never forwards anything to the bus (the forwarded-message list and
the bridge state are untouched), and its effect on the connection table is
exactly that of the local `fanout` on the resolved channel. -/
theorem onBusMessage_terminal (s : SystemState) (topic : String) (e : Event) :
    (onBusMessage s topic e).1.busOutbox = s.busOutbox
    ∧ (onBusMessage s topic e).1.bridge = s.bridge
    ∧ (onBusMessage s topic e).1.conns = (fanout s (resolveTopic topic) e).1.conns
    ∧ (onBusMessage s topic e).2 = (fanout s (resolveTopic topic) e).2 :=
  ⟨rfl, rfl, rfl, rfl⟩

/-- C6: each connection-rejection cause carries its documented, stable
closure code -- 4000 invalid order id format, 4001 authentication failure,
4003 access denied, 4004 order not found -- the code map is injective (all
four codes are distinct), and a failed connection attempt is rejected with
exactly the code of its cause. -/
theorem closure_codes_distinct :
    closureCode .invalidOrderId = 4000
    ∧ closureCode .authFailed = 4001
    ∧ closureCode .accessDenied = 4003
    ∧ closureCode .orderNotFound = 4004
    ∧ Function.Injective closureCode
    ∧ (∀ validId validate lookup s path cred newCid,
        parseChannel validId path = none →
        handleConnect validId validate lookup s path cred newCid =
          .error (.invalidOrderId, 4000))
    ∧ (∀ validId validate lookup s path cred newCid req f,
        parseChannel validId path = some req →
        accept validate lookup s req cred newCid = .error f →
        handleConnect validId validate lookup s path cred newCid =
          .error (reasonOf f, closureCode (reasonOf f))) := by
  refine ⟨rfl, rfl, rfl, rfl, by decide, ?_, ?_⟩
  · intro validId validate lookup s path cred newCid hp
    simp [handleConnect, hp, closureCode]
  · intro validId validate lookup s path cred newCid req f hp ha
    simp [handleConnect, hp, ha]

/-- Witness for C6 at concrete inputs: a malformed order id is rejected with
code 4000, and an invalid credential is rejected with code 4001. -/
theorem closure_codes_distinct_witness :
    handleConnect (fun _ => false) (fun _ => none) (fun _ => none) demoState
      (.ordersPath "not-a-uuid") "tok" 3 = .error (.invalidOrderId, 4000)
    ∧ handleConnect (fun _ => true) (fun _ => none) (fun _ => none) demoState
      (.ordersPath "o1") "tok" 3 = .error (.authFailed, 4001) :=
  ⟨closure_codes_distinct.2.2.2.2.2.1 _ _ _ _ _ _ _ rfl,
   closure_codes_distinct.2.2.2.2.2.2 _ _ _ _ _ _ _ (.orderChannel "o1")
     .invalid_credential rfl rfl⟩

/-- A subscriber's queue after fan-out: the event is appended, dropping the
oldest entry when the queue is at the bound. -/
theorem connQueue_fanout_mem (s : SystemState) (ch : String) (e : Event)
    (cid : Nat) (h : cid ∈ subsOf s.registry ch) :
    connQueue (fanout s ch e).1 cid =
      (connQueue s cid).map (fun q =>
        if q.length < s.maxQ then q ++ [e] else q.tail ++ [e]) := by
  rw [connQueue_fanout]
  cases connQueue s cid <;> simp [h]

/-- A non-subscriber's queue is untouched by fan-out. -/
theorem connQueue_fanout_not_mem (s : SystemState) (ch : String) (e : Event)
    (cid : Nat) (h : cid ∉ subsOf s.registry ch) :
    connQueue (fanout s ch e).1 cid = connQueue s cid := by
  rw [connQueue_fanout]
  cases connQueue s cid <;> simp [h]

/-- Fan-out on a channel with no subscribers changes nothing and reports
zero deliveries. -/
theorem fanout_empty (s : SystemState) (ch : String) (e : Event)
    (h : subsOf s.registry ch = []) : fanout s ch e = (s, 0) := by
  have hconns : s.conns.map (deliverConn s.maxQ (subsOf s.registry ch) e) = s.conns := by
    rw [h]
    calc s.conns.map (deliverConn s.maxQ [] e)
        = s.conns.map id := List.map_congr_left (fun c _ => by simp [deliverConn])
      _ = s.conns := List.map_id s.conns
  have hcount : s.conns.countP (fun c =>
      decide (c.cid ∈ subsOf s.registry ch) && decide (s.maxQ ≤ c.queue.length)) = 0 := by
    rw [h]
    simp [List.countP_eq_zero]
  unfold fanout
  rw [hconns, hcount, h]
  simp

/-- Removing a connection id from a channel it is not subscribed to leaves
the registry unchanged. -/
theorem unsubscribe_absent (reg : List (String × List Nat)) (ch : String)
    (cid : Nat) (h : ∀ p ∈ reg, p.1 = ch → cid ∉ p.2) :
    unsubscribe reg ch cid = reg := by
  unfold unsubscribe
  have hpt : ∀ p ∈ reg,
      (if p.1 == ch then (p.1, p.2.filter (fun k => k ≠ cid)) else p) = p := by
    intro p hp
    by_cases hc : (p.1 == ch) = true
    · have hch : p.1 = ch := by simpa using hc
      have hnotin : cid ∉ p.2 := h p hp hch
      have hfil : p.2.filter (fun k => k ≠ cid) = p.2 := by
        refine List.filter_eq_self.mpr ?_
        intro k hk
        have hne : k ≠ cid := fun hEq => hnotin (hEq ▸ hk)
        simpa using hne
      rw [if_pos hc, hfil]
    · rw [if_neg hc]
  calc reg.map (fun p => if p.1 == ch then (p.1, p.2.filter (fun k => k ≠ cid)) else p)
      = reg.map id := List.map_congr_left (fun p hp => hpt p hp)
    _ = reg := List.map_id reg

/-- A concrete event used by the concrete witnesses. -/
def demoEvent : Event := { type := "product_created", data := "sku-1" }

/-- A second concrete event used by the concrete witnesses. -/
def demoEvent2 : Event := { type := "inventory_updated", data := "sku-1" }

/-- C2: `publish` on a channel delivers exactly one copy of the event to
every connection in the channel's subscriber set at publish time (a
connection whose bounded queue is full has its oldest entry dropped, which
is the counted-overflow case) and leaves every other connection untouched;
`fanout` returns the number of subscribed connections delivered to, and on a
channel with zero subscribers it is a successful no-op returning 0;
unsubscribing a connection that is not subscribed is a no-op. -/
theorem fanout_delivery_correct (s : SystemState) (ch : String) (e : Event)
    (cid : Nat) :
    (fanout s ch e).2 = (subsOf s.registry ch).length
    ∧ (cid ∈ subsOf s.registry ch →
        connQueue (publish s ch e).1 cid =
          (connQueue s cid).map (fun q =>
            if q.length < s.maxQ then q ++ [e] else q.tail ++ [e]))
    ∧ (cid ∉ subsOf s.registry ch →
        connQueue (publish s ch e).1 cid = connQueue s cid)
    ∧ (subsOf s.registry ch = [] → fanout s ch e = (s, 0))
    ∧ (∀ reg : List (String × List Nat),
        (∀ p ∈ reg, p.1 = ch → cid ∉ p.2) → unsubscribe reg ch cid = reg) := by
  refine ⟨rfl, ?_, ?_, fanout_empty s ch e, fun reg hreg => unsubscribe_absent reg ch cid hreg⟩
  · intro h
    rw [connQueue_publish, connQueue_fanout_mem s ch e cid h]
  · intro h
    rw [connQueue_publish, connQueue_fanout_not_mem s ch e cid h]

/-- Witness for C2 at the concrete two-subscriber state: subscriber 1
receives the event, absent connection 3 is untouched, an empty channel
fans out to zero, and unsubscribing an absent connection is a no-op. -/
theorem fanout_delivery_correct_witness :
    (fanout demoState "products" demoEvent).2 = 2
    ∧ (1 ∈ subsOf demoState.registry "products")
    ∧ connQueue (publish demoState "products" demoEvent).1 1 =
        (connQueue demoState 1).map (fun q =>
          if q.length < demoState.maxQ then q ++ [demoEvent] else q.tail ++ [demoEvent])
    ∧ (3 ∉ subsOf demoState.registry "products")
    ∧ connQueue (publish demoState "products" demoEvent).1 3 = connQueue demoState 3
    ∧ fanout demoState "order:o9" demoEvent = (demoState, 0)
    ∧ unsubscribe [("products", [1, 2])] "products" 3 = [("products", [1, 2])] :=
  ⟨by decide, by decide,
   (fanout_delivery_correct demoState "products" demoEvent 1).2.1 (by decide),
   by decide,
   (fanout_delivery_correct demoState "products" demoEvent 3).2.2.1 (by decide),
   (fanout_delivery_correct demoState "order:o9" demoEvent 1).2.2.2.1 (by decide),
   (fanout_delivery_correct demoState "products" demoEvent 3).2.2.2.2
     [("products", [1, 2])] (by decide)⟩

/-- C3: `BusBridge.publish` performs the local fan-out first and its effect
on the connection table is the same whatever the bus reachability; when bus
forwarding fails it does not raise (it returns normally), appends one log
entry and marks the bridge `degraded`; and with the bridge already degraded
every subscriber of the channel still receives the published event. -/
theorem publish_local_delivery_independent_of_bus (s : SystemState) (ch : String)
    (e : Event) :
    (∀ b : Bool, (publish { s with busUp := b } ch e).1.conns = (fanout s ch e).1.conns)
    ∧ (s.busUp = false →
        (publish s ch e).1.bridge = BusState.degraded
        ∧ (publish s ch e).1.log = s.log ++ ["bus publish failed: " ++ ch])
    ∧ (s.bridge = BusState.degraded → ∀ cid, cid ∈ subsOf s.registry ch →
        connQueue (publish s ch e).1 cid =
          (connQueue s cid).map (fun q =>
            if q.length < s.maxQ then q ++ [e] else q.tail ++ [e])) := by
  refine ⟨?_, ?_, ?_⟩
  · intro b
    show (busForward (fanout { s with busUp := b } ch e).1 ch e).conns = _
    rw [busForward_conns]
    rfl
  · intro hb
    have hup : (fanout s ch e).1.busUp = false := hb
    constructor
    · show (busForward (fanout s ch e).1 ch e).bridge = BusState.degraded
      unfold busForward
      rw [hup]
      simp
    · show (busForward (fanout s ch e).1 ch e).log = s.log ++ ["bus publish failed: " ++ ch]
      unfold busForward
      rw [hup]
      simp
      rfl
  · intro _hbridge cid hcid
    rw [connQueue_publish, connQueue_fanout_mem s ch e cid hcid]

/-- The concrete two-subscriber state with the bus unreachable and the
bridge already degraded. -/
def demoDegraded : SystemState :=
  { demoState with busUp := false, bridge := .degraded }

/-- Witness for C3 at the concrete degraded state: publishing still delivers
to subscriber 1, the bridge stays degraded and the failure is logged. -/
theorem publish_local_delivery_independent_of_bus_witness :
    (publish demoDegraded "products" demoEvent).1.bridge = BusState.degraded
    ∧ (publish demoDegraded "products" demoEvent).1.log =
        demoDegraded.log ++ ["bus publish failed: " ++ "products"]
    ∧ connQueue (publish demoDegraded "products" demoEvent).1 1 =
        (connQueue demoDegraded 1).map (fun q =>
          if q.length < demoDegraded.maxQ then q ++ [demoEvent] else q.tail ++ [demoEvent]) :=
  ⟨((publish_local_delivery_independent_of_bus demoDegraded "products" demoEvent).2.1 rfl).1,
   ((publish_local_delivery_independent_of_bus demoDegraded "products" demoEvent).2.1 rfl).2,
   (publish_local_delivery_independent_of_bus demoDegraded "products" demoEvent).2.2
     rfl 1 (by decide)⟩

/-- C5: when fan-out hits a subscribed connection whose bounded queue is
full, that connection's oldest undelivered message is dropped, the incoming
event is still appended, the connection is closed and a warning is counted;
a second subscribed connection with queue room receives the event with its
closed flag untouched; and when the bound is positive, fan-out preserves the
queue-length bound on every connection (the publisher can never be backed up
by unbounded queue growth). -/
theorem slow_consumer_isolated (s : SystemState) (ch : String) (e : Event)
    (a b : Nat) (qA qB : List Event)
    (hamem : a ∈ subsOf s.registry ch) (hbmem : b ∈ subsOf s.registry ch)
    (hqa : connQueue s a = some qA) (hfull : s.maxQ ≤ qA.length)
    (hqb : connQueue s b = some qB) (hroom : qB.length < s.maxQ) :
    connQueue (fanout s ch e).1 a = some (qA.tail ++ [e])
    ∧ connClosed (fanout s ch e).1 a = some true
    ∧ connQueue (fanout s ch e).1 b = some (qB ++ [e])
    ∧ connClosed (fanout s ch e).1 b = connClosed s b
    ∧ s.warnings < (fanout s ch e).1.warnings
    ∧ (1 ≤ s.maxQ → (∀ c ∈ s.conns, c.queue.length ≤ s.maxQ) →
        ∀ c2 ∈ (fanout s ch e).1.conns, c2.queue.length ≤ s.maxQ) := by
  obtain ⟨cA, hfindA, hquA⟩ :
      ∃ c, s.conns.find? (fun x => x.cid == a) = some c ∧ c.queue = qA := by
    unfold connQueue at hqa
    cases hfind : s.conns.find? (fun x => x.cid == a) with
    | none => rw [hfind] at hqa; simp at hqa
    | some c => rw [hfind] at hqa; exact ⟨c, rfl, by simpa using hqa⟩
  obtain ⟨cB, hfindB, hquB⟩ :
      ∃ c, s.conns.find? (fun x => x.cid == b) = some c ∧ c.queue = qB := by
    unfold connQueue at hqb
    cases hfind : s.conns.find? (fun x => x.cid == b) with
    | none => rw [hfind] at hqb; simp at hqb
    | some c => rw [hfind] at hqb; exact ⟨c, rfl, by simpa using hqb⟩
  have hcidA : cA.cid = a := by simpa using List.find?_some hfindA
  refine ⟨?_, ?_, ?_, ?_, ?_, ?_⟩
  · rw [connQueue_fanout_mem s ch e a hamem, hqa]
    simp [Nat.not_lt.2 hfull]
  · rw [connClosed_fanout, hfindA]
    have : ¬ cA.queue.length < s.maxQ := by rw [hquA]; exact Nat.not_lt.2 hfull
    simp [hamem, this]
    exact Or.inl (by rw [hquA]; exact hfull)
  · rw [connQueue_fanout_mem s ch e b hbmem, hqb]
    simp [hroom]
  · rw [connClosed_fanout]
    unfold connClosed
    rw [hfindB]
    have : cB.queue.length < s.maxQ := by rw [hquB]; exact hroom
    simp [this]
  · show s.warnings < s.warnings + s.conns.countP _
    have hpos : 0 < s.conns.countP (fun c =>
        decide (c.cid ∈ subsOf s.registry ch) && decide (s.maxQ ≤ c.queue.length)) := by
      refine List.countP_pos_iff.mpr ⟨cA, List.mem_of_find?_eq_some hfindA, ?_⟩
      simp [hcidA, hquA, hamem, hfull]
    omega
  · intro hone hall c2 hc2
    have hc2m : c2 ∈ s.conns.map (deliverConn s.maxQ (subsOf s.registry ch) e) := hc2
    obtain ⟨c, hcmem, rfl⟩ := List.mem_map.mp hc2m
    have hlen := hall c hcmem
    unfold deliverConn
    by_cases hm : c.cid ∈ subsOf s.registry ch
    · by_cases hl : c.queue.length < s.maxQ
      · simp [hm, hl]
        omega
      · simp [hm, hl, List.length_tail]
        omega
    · simp [hm]
      exact hlen

/-- The concrete state for the overflow witness: subscriber 1's queue is at
the bound (one entry, bound one); subscriber 2's queue has room. -/
def overflowState : SystemState :=
  { conns := [{ cid := 1, channel := "products", queue := [demoEvent], closed := false },
              { cid := 2, channel := "products", queue := [], closed := false }],
    registry := [("products", [1, 2])],
    maxQ := 1, busUp := true, bridge := .connected,
    busOutbox := [], warnings := 0, log := [] }

/-- Witness for C5 at the concrete overflow state: connection 1 drops its
oldest message, gets the new event and is closed with a warning counted,
while connection 2 receives the event untouched. -/
theorem slow_consumer_isolated_witness :
    connQueue (fanout overflowState "products" demoEvent2).1 1 =
      some ([demoEvent].tail ++ [demoEvent2])
    ∧ connClosed (fanout overflowState "products" demoEvent2).1 1 = some true
    ∧ connQueue (fanout overflowState "products" demoEvent2).1 2 =
      some ([] ++ [demoEvent2])
    ∧ connClosed (fanout overflowState "products" demoEvent2).1 2 =
      connClosed overflowState 2
    ∧ overflowState.warnings < (fanout overflowState "products" demoEvent2).1.warnings :=
  have h := slow_consumer_isolated overflowState "products" demoEvent2 1 2
    [demoEvent] [] (by decide) (by decide) (by decide) (by decide) (by decide) (by decide)
  ⟨h.1, h.2.1, h.2.2.1, h.2.2.2.1, h.2.2.2.2.1⟩

/-- C7: teardown is idempotent -- running the teardown of a connection a
second time changes nothing: the registry removal, the queue release and the
socket close all leave the state produced by the first run fixed. -/
theorem teardown_idempotent (s : SystemState) (cid : Nat) :
    teardown (teardown s cid) cid = teardown s cid := by
  unfold teardown
  simp only [List.map_map]
  have h1 : closeConn cid ∘ closeConn cid = closeConn cid := by
    funext c
    simp only [Function.comp_apply, closeConn]
    by_cases h : c.cid = cid <;> simp [h]
  have h2 : ((fun p : String × List Nat => (p.1, p.2.filter (fun k => k ≠ cid))) ∘
      (fun p : String × List Nat => (p.1, p.2.filter (fun k => k ≠ cid)))) =
      (fun p : String × List Nat => (p.1, p.2.filter (fun k => k ≠ cid))) := by
    funext p
    simp [List.filter_filter]
  rw [h1, h2]

end Broadcast

namespace Client

/-- C9: with the hook's default options, every close whose code is not 1000
-- including the server's rejection codes 4001, 4003 and 4004 -- schedules a
reconnection attempt after the 5000 ms default interval; only a close with
code 1000 schedules nothing, and an explicit `disconnect` clears any pending
reconnect timer. -/
theorem reconnect_policy :
    (∀ code : Nat, code ≠ 1000 → onCloseAction {} code = some 5000)
    ∧ onCloseAction {} 1000 = none
    ∧ (∀ st, (disconnect st).pendingReconnect = none) := by
  refine ⟨?_, rfl, fun _ => rfl⟩
  intro code h
  simp [onCloseAction, h]

/-- Witness for C9: the authentication, forbidden and not-found rejection
codes each get a reconnect scheduled after 5000 ms. -/
theorem reconnect_policy_witness :
    onCloseAction {} 4001 = some 5000
    ∧ onCloseAction {} 4003 = some 5000
    ∧ onCloseAction {} 4004 = some 5000 :=
  ⟨reconnect_policy.1 4001 (by decide), reconnect_policy.1 4003 (by decide),
   reconnect_policy.1 4004 (by decide)⟩

/-- C8: whenever the client hook opens a connection, the bearer credential
extracted from the `access_token` cookie travels as the `token` query
parameter appended to the endpoint path of the connection URI, and the
handshake request carries no transport headers. -/
theorem token_as_query_param (wsUrl cookie : String) (endpointArg : JsArg)
    (req : WsRequest) (h : connect true wsUrl cookie endpointArg = some req) :
    req.headers = []
    ∧ ∃ token, extractAccessToken cookie = some token ∧
        req.url = wsUrl ++ "/api/v1/ws" ++ coerceToString endpointArg
          ++ "?token=" ++ token := by
  cases htok : extractAccessToken cookie with
  | none => simp [connect, htok] at h
  | some token =>
    simp only [connect, htok, if_true] at h
    rw [Option.some_inj] at h
    rw [← h]
    exact ⟨rfl, token, rfl, rfl⟩

/-- Witness for C8 at a concrete cookie and endpoint: the produced handshake
URL carries the cookie's token as its query parameter and no headers. -/
theorem token_as_query_param_witness :
    (⟨"ws://localhost:8000/api/v1/ws/products?token=tok123", []⟩ : WsRequest).headers = []
    ∧ ∃ token,
        extractAccessToken "theme=dark; access_token=tok123" = some token ∧
        ("ws://localhost:8000/api/v1/ws/products?token=tok123" : String) =
          "ws://localhost:8000" ++ "/api/v1/ws" ++ coerceToString (.strArg "/products")
            ++ "?token=" ++ token :=
  token_as_query_param "ws://localhost:8000" "theme=dark; access_token=tok123"
    (.strArg "/products")
    ⟨"ws://localhost:8000/api/v1/ws/products?token=tok123", []⟩ (by decide)

/-- C10: the hook builds the connection URL by plain string concatenation of
the base, `/api/v1/ws`, its first positional argument and `?token=`; when a
call site passes an options object as that first argument -- as the
dashboard layout and the products, orders and users pages all do -- the
object coerces to `[object Object]`, so the resulting URL's path is
`/api/v1/ws[object Object]` and names neither the documented `/ws/products`
nor `/ws/orders/{id}` endpoint. -/
theorem objArg_url_malformed (base tok : String) (fields : List (String × String)) :
    buildWsUrl base (coerceToString (.objArg fields)) tok =
      base ++ "/api/v1/ws[object Object]?token=" ++ tok
    ∧ occursIn "/ws/products".toList
        ("/api/v1/ws" ++ coerceToString (.objArg fields)).toList = false
    ∧ occursIn "/ws/orders".toList
        ("/api/v1/ws" ++ coerceToString (.objArg fields)).toList = false
    ∧ coerceToString dashboardLayoutArg = "[object Object]"
    ∧ coerceToString ordersPageArg = "[object Object]"
    ∧ coerceToString productsPageArg = "[object Object]"
    ∧ coerceToString usersPageArg = "[object Object]" := by
  refine ⟨?_, ?_, ?_, rfl, rfl, rfl, rfl⟩
  · show base ++ "/api/v1/ws" ++ "[object Object]" ++ "?token=" ++ tok =
      base ++ "/api/v1/ws[object Object]?token=" ++ tok
    simp only [String.append_assoc]
    rfl
  · exact (by decide :
      occursIn "/ws/products".toList ("/api/v1/ws" ++ "[object Object]").toList = false)
  · exact (by decide :
      occursIn "/ws/orders".toList ("/api/v1/ws" ++ "[object Object]").toList = false)

end Client
